import Mathlib

/-!
Shallow embedding of the supervisor-integration agent's core modules
(`app/agent_caller.py`, `app/combine.py`, `app/history.py`) and of the data
model of `app/models.py` (the latter is absent from the sources and is
modelled from the specification).  Python dictionaries coming off the wire
are embedded as a JSON value type `JValue`; Python string conversion
(`str(...)` / f-string interpolation) is embedded by `pyStr`, and `repr`
by `pyRepr`.  Numbers are modelled as integers (floating point is out of
scope); float formatting such as `:.2f` is modelled on that integer carrier.
-/

set_option linter.unusedVariables false
set_option linter.unnecessarySimpa false

namespace Supervisor

/-- JSON values as decoded by `resp.json()` in the Python source.
Object fields keep insertion order, mirroring Python dicts. -/
inductive JValue where
  | null : JValue
  | bool : Bool → JValue
  | num : Int → JValue
  | str : String → JValue
  | arr : List JValue → JValue
  | obj : List (String × JValue) → JValue

namespace JValue

/-- Python `d.get(key)` on a dict: first binding wins (dicts have unique keys). -/
def get : JValue → String → Option JValue
  | .obj fields, k => fields.lookup k
  | _, _ => none

/-- Python `d.get(key, default)`. -/
def getD (j : JValue) (k : String) (dflt : JValue) : JValue :=
  (j.get k).getD dflt

/-- Python `key in d` on a dict. -/
def hasKey (j : JValue) (k : String) : Bool :=
  (j.get k).isSome

/-- Python truthiness (`bool(v)`): `None`, `False`, `0`, `""`, `[]`, `{}` are falsy. -/
def truthy : JValue → Bool
  | .null => false
  | .bool b => b
  | .num n => n != 0
  | .str s => s != ""
  | .arr xs => !xs.isEmpty
  | .obj fields => !fields.isEmpty

end JValue

mutual

/-- Python `repr(v)` for embedded JSON values (strings get quotes). -/
def pyRepr : JValue → String
  | .null => "None"
  | .bool b => if b then "True" else "False"
  | .num n => toString n
  | .str s => "'" ++ s ++ "'"
  | .arr xs => "[" ++ pyReprArr xs ++ "]"
  | .obj fields => "\x7b" ++ pyReprObj fields ++ "\x7d"

/-- Comma-joined `repr`s of the elements of a Python list. -/
def pyReprArr : List JValue → String
  | [] => ""
  | [x] => pyRepr x
  | x :: rest => pyRepr x ++ ", " ++ pyReprArr rest

/-- Comma-joined `'key': repr(value)` renderings of a Python dict's items. -/
def pyReprObj : List (String × JValue) → String
  | [] => ""
  | [(k, v)] => "'" ++ k ++ "': " ++ pyRepr v
  | (k, v) :: rest => "'" ++ k ++ "': " ++ pyRepr v ++ ", " ++ pyReprObj rest

end

/-- Python `str(v)` (used by f-string interpolation): like `repr` except that
strings come out bare. -/
def pyStr : JValue → String
  | .str s => s
  | v => pyRepr v

mutual

/-- Python `json.dumps(v)`.  The source passes `indent=2`; the indentation layout is
not modelled (no claim inspects it), only the rendered content. -/
def jsonDumps : JValue → String
  | .null => "null"
  | .bool b => if b then "true" else "false"
  | .num n => toString n
  | .str s => "\"" ++ s ++ "\""
  | .arr xs => "[" ++ jsonDumpsArr xs ++ "]"
  | .obj fields => "\x7b" ++ jsonDumpsObj fields ++ "\x7d"

/-- Comma-joined serializations of a JSON array's elements. -/
def jsonDumpsArr : List JValue → String
  | [] => ""
  | [x] => jsonDumps x
  | x :: rest => jsonDumps x ++ ", " ++ jsonDumpsArr rest

/-- Comma-joined `"key": value` serializations of a JSON object's fields. -/
def jsonDumpsObj : List (String × JValue) → String
  | [] => ""
  | [(k, v)] => "\"" ++ k ++ "\": " ++ jsonDumps v
  | (k, v) :: rest => "\"" ++ k ++ "\": " ++ jsonDumps v ++ ", " ++ jsonDumpsObj rest

end

/-- Python truthiness of an optional string (`None` and `""` are falsy);
used for `context.get(...)` values and for optional configuration strings. -/
def optTruthy : Option String → Bool
  | none => false
  | some s => s ≠ ""

/-- Python `x if x is not None else "None"` as it appears inside f-strings:
`f"{v}"` renders `None` as the string `"None"`. -/
def pyShowOpt : Option String → String
  | none => "None"
  | some s => s

/-- Python string slicing `s[:n]` (by code points). -/
def pySlice (s : String) (n : Nat) : String :=
  ⟨s.data.take n⟩

/-- Modelled from the spec: `ErrorModel` of the missing `app/models.py` —
`type` (closed taxonomy string) and `message` (free text). -/
structure ErrorModel where
  etype : String
  message : String
  deriving DecidableEq, Repr

/-- Modelled from the spec: `OutputModel` of the missing `app/models.py` —
`result` is the display text, `details` the optional raw/verbose JSON text. -/
structure OutputModel where
  result : String
  details : Option String
  deriving DecidableEq, Repr

/-- Modelled from the spec: `AgentResponse` of the missing `app/models.py`,
the canonical inbound envelope: `request_id`, `agent_name`, `status`
(`success` or `error`), optional `output`, optional `error`. -/
structure AgentResponse where
  request_id : String
  agent_name : String
  status : String
  output : Option OutputModel
  error : Option ErrorModel
  deriving DecidableEq, Repr

/-- Modelled from the spec: `AgentMetadata` of the missing `app/models.py` —
`name`, transport `type` (`http`, `cli`, …), optional `endpoint` URI,
`timeout_ms`. -/
structure AgentMetadata where
  name : String
  type : String
  endpoint : Option String
  timeout_ms : Nat
  deriving DecidableEq, Repr

/-- One entry of `context["file_uploads"]`: a Python dict read with
`.get("base64_data", "")`, `.get("mime_type", ...)`, `.get("filename", ...)`;
absent keys are `none`. -/
structure FileUpload where
  base64_data : Option String
  mime_type : Option String
  filename : Option String
  deriving DecidableEq, Repr

/-- The shared `context` mapping, restricted to the keys `call_agent` reads:
`user_id`, `goal_id`, `progress`, `file_uploads`.  Values the source probes
with Python truthiness are modelled as optional strings. -/
structure Context where
  user_id : Option String
  goal_id : Option String
  progress : Option String
  file_uploads : List FileUpload
  deriving DecidableEq, Repr

/-- The `metadata` sub-map assembled at the top of `call_agent`: a fixed
`language` field, an `extra` map (always left empty by the source), and the
optional embedded file payload keys. -/
structure ReqMetadata where
  language : String
  extra : List (String × String)
  file_base64 : Option String
  mime_type : Option String
  filename : Option String
  deriving DecidableEq, Repr

/-- Modelled from the spec: `AgentRequest` of the missing `app/models.py`,
the canonical outbound envelope built by `call_agent` (its `input` mapping is
split into the `text` and `metadata` entries the source always gives it). -/
structure AgentRequest where
  request_id : String
  agent_name : String
  intent : String
  input_text : String
  input_metadata : ReqMetadata
  context : Context
  deriving DecidableEq, Repr

/-- One entry of `tool_outputs`: a per-agent result record read by the source
with `entry.get("agent")`, `entry.get("status")`, `entry.get("result")`,
`entry.get("error")`; absent keys are `none`. -/
structure ToolOutput where
  agent : Option String
  status : Option String
  result : Option String
  error : Option String
  deriving DecidableEq, Repr

/-- Modelled from the spec: `CombinedAnswerRequest` of the missing
`app/models.py` — `user_query`, ordered `tool_outputs`, optional
`history_summary`. -/
structure CombinedAnswerRequest where
  user_query : String
  tool_outputs : List ToolOutput
  history_summary : Option String

/-- Modelled from the spec: `CombinedAnswerResponse` of the missing
`app/models.py` — just the combined answer text. -/
structure CombinedAnswerResponse where
  combined_answer : String
  deriving DecidableEq, Repr

/-- Modelled from the spec: field validation for a required string field of a
pydantic model (a non-string or missing value raises `ValidationError`). -/
def reqStrField (j : JValue) (k : String) : Except String String :=
  match j.get k with
  | some (.str s) => .ok s
  | _ => .error ("validation error: field " ++ k)

/-- Modelled from the spec: field validation for an optional string field
(absent or `null` is `None`; any other non-string raises). -/
def optStrField (j : JValue) (k : String) : Except String (Option String) :=
  match j.get k with
  | none => .ok none
  | some .null => .ok none
  | some (.str s) => .ok (some s)
  | some _ => .error ("validation error: field " ++ k)

/-- Modelled from the spec: decoding the optional `output` sub-model
(`OutputModel{result, details}`, `result` required text). -/
def parseOutputModel (j : JValue) : Except String (Option OutputModel) :=
  match j.get "output" with
  | none => .ok none
  | some .null => .ok none
  | some v =>
    match reqStrField v "result", optStrField v "details" with
    | .ok r, .ok d => .ok (some ⟨r, d⟩)
    | .error e, _ => .error e
    | _, .error e => .error e

/-- Modelled from the spec: decoding the optional `error` sub-model
(`ErrorModel{type, message}`). -/
def parseErrorModel (j : JValue) : Except String (Option ErrorModel) :=
  match j.get "error" with
  | none => .ok none
  | some .null => .ok none
  | some v =>
    match reqStrField v "type", reqStrField v "message" with
    | .ok t, .ok m => .ok (some ⟨t, m⟩)
    | .error e, _ => .error e
    | _, .error e => .error e

/-- Modelled from the spec: `AgentResponse(**resp.json())` — field-wise
pydantic validation of the canonical envelope (`request_id`, `agent_name`,
`status` drawn from the `success`/`error` enum, optional `output`/`error`
sub-models; extra keys ignored).  A failure raises `ValidationError`. -/
def parseAgentResponse (j : JValue) : Except String AgentResponse :=
  match reqStrField j "request_id", reqStrField j "agent_name",
        reqStrField j "status" with
  | .ok rid, .ok name, .ok st =>
    if st = "success" ∨ st = "error" then
      match parseOutputModel j, parseErrorModel j with
      | .ok o, .ok e => .ok ⟨rid, name, st, o, e⟩
      | .error e, _ => .error e
      | _, .error e => .error e
    else .error "validation error: field status"
  | .error e, _, _ => .error e
  | _, .error e, _ => .error e
  | _, _, .error e => .error e

/-! ## `app/agent_caller.py` -/

/-- Source `PROGRESS_AGENT_INTENT_MAP` (agent_caller.py lines 22–32): the fixed
intent → task lookup table for the progress/accountability agent. -/
def PROGRESS_AGENT_INTENT_MAP : List (String × String) :=
  [("progress.track", "accountability"),
   ("progress.accountability", "accountability"),
   ("goal.create", "freeform_message"),
   ("goal.update", "goal"),
   ("reflection.add", "freeform_message"),
   ("reflection.analyze", "analyze_reflections"),
   ("productivity.report", "generate_report"),
   ("productivity.insights", "get_insights"),
   ("productivity.freeform", "freeform_message")]

/-- Metadata assembly at the top of `call_agent` (lines 141–164): start from
`{"language": "en", "extra": {}}`; if `file_uploads` is non-empty and the
first upload's `base64_data` is non-empty, add `file_base64`, `mime_type`
(default `application/octet-stream`) and `filename` (default
`uploaded_file`) taken from the first upload only. -/
def buildMetadata (uploads : List FileUpload) : ReqMetadata :=
  let base : ReqMetadata := ⟨"en", [], none, none, none⟩
  match uploads with
  | [] => base
  | first :: _ =>
    let b := first.base64_data.getD ""
    if b ≠ "" then
      { base with
        file_base64 := some b,
        mime_type := some (first.mime_type.getD "application/octet-stream"),
        filename := some (first.filename.getD "uploaded_file") }
    else base

/-- The `params` dict of the progress/accountability payload; keys appear
only when the source sets them. -/
structure ProgressParams where
  message : Option String := none
  goal_id : Option String := none
  progress : Option String := none
  deriving DecidableEq, Repr

/-- Task/params derivation for the progress/accountability agent
(lines 186–209): look the intent up in `PROGRESS_AGENT_INTENT_MAP` with
default task `accountability`; freeform tasks carry `message`; the `goal`
task also carries `message` and is rewritten to `freeform_message` before
sending; otherwise, for intent `goal.update` with truthy `goal_id` and
`progress` in the context, carry those two; otherwise `params` stays empty. -/
def buildProgressTaskParams (intent text : String) (ctx : Context) :
    String × ProgressParams :=
  let task := (PROGRESS_AGENT_INTENT_MAP.lookup intent).getD "accountability"
  if task = "freeform_message" then
    (task, { message := some text })
  else if task = "goal" then
    ("freeform_message", { message := some text })
  else if intent = "goal.update" ∧ optTruthy ctx.goal_id ∧ optTruthy ctx.progress then
    (task, { goal_id := ctx.goal_id, progress := ctx.progress })
  else
    (task, {})

/-- The JSON payload POSTed to an agent, whose shape branches on the agent
name (lines 181–212). -/
inductive Payload where
  | budgetQuery : String → Payload
  | progress : String → String → ProgressParams → Payload
  | handshake : AgentRequest → Payload
  deriving DecidableEq, Repr

/-- Payload selection in `call_agent` (lines 181–212): the budget-tracking
agent gets `{"query": text}`, the progress/accountability agent gets
`{user_id, task, params}`, every other agent gets the canonical handshake. -/
def buildPayload (meta : AgentMetadata) (intent text : String) (ctx : Context)
    (handshake : AgentRequest) : Payload :=
  if meta.name = "budget_tracker_agent" then
    .budgetQuery text
  else if meta.name = "progress_accountability_agent" then
    let uid := ctx.user_id.getD "anonymous"
    let tp := buildProgressTaskParams intent text ctx
    .progress uid tp.1 tp.2
  else
    .handshake handshake

/-- The `task` field of a POSTed payload, when the payload has one. -/
def Payload.taskField : Payload → Option String
  | .progress _ task _ => some task
  | _ => none

/-- The `params` field of a POSTed payload, when the payload has one. -/
def Payload.paramsField : Payload → Option ProgressParams
  | .progress _ _ params => some params
  | _ => none

/-- An error `AgentResponse` as every error path of `call_agent` constructs
it: `status="error"`, no `output`, a populated `ErrorModel`. -/
def mkError (rid name etype msg : String) : AgentResponse :=
  ⟨rid, name, "error", none, some ⟨etype, msg⟩⟩

/-- A success `AgentResponse` as the known-agent 200 paths construct it:
`status="success"`, a populated `OutputModel`, `error=None`. -/
def mkSuccess (rid name result : String) (details : Option String) : AgentResponse :=
  ⟨rid, name, "success", some ⟨result, details⟩, none⟩

/-- Python `v == "s"` where `v` came off the wire: true only for an equal
string (comparison with a non-string is `False`, never an error). -/
def JValue.isStrVal (v : JValue) (s : String) : Bool :=
  match v with
  | .str t => t == s
  | _ => false

/-- Python float formatting `format(v, '.1%')` on the integer number model
(booleans are ints in Python); any other operand raises `ValueError`. -/
def fmtPct1 (v : JValue) : Except String String :=
  match v with
  | .num n => .ok (toString (n * 100) ++ ".0%")
  | .bool b => .ok (if b then "100.0%" else "0.0%")
  | _ => .error "Unknown format code for object"

/-- Python float formatting `format(v, '.2f')` on the integer number model;
any non-numeric operand raises `ValueError`. -/
def fmtF2 (v : JValue) : Except String String :=
  match v with
  | .num n => .ok (toString n ++ ".00")
  | .bool b => .ok (if b then "1.00" else "0.00")
  | _ => .error "Unknown format code for object"

/-- All-string check for `str.join` over a Python list. -/
def strElems : List JValue → Except String (List String)
  | [] => .ok []
  | .str s :: rest => (strElems rest).map (s :: ·)
  | _ :: _ => .error "sequence item: expected str instance"

/-- Python `sep.join(v)`: joins a list of strings, a dict's keys, or a
string's characters; anything else (or a non-string element) raises. -/
def pyJoin (sep : String) (v : JValue) : Except String String :=
  match v with
  | .arr xs => (strElems xs).map (String.intercalate sep)
  | .obj fields => .ok (String.intercalate sep (fields.map (·.1)))
  | .str s => .ok (String.intercalate sep (s.data.map (fun c => String.mk [c])))
  | _ => .error "can only join an iterable"

/-- Source `format_accountability_response` (agent_caller.py lines 35–86): renders
the accountability payload into display text.  Python exceptions raised by
ill-typed payload values (`:.1%` on a non-number, `.upper()` / `.get` on a
non-string / non-dict, iterating a non-dict) are modelled as `Except`
errors; they are caught by the caller's `except` and become `parse_error`. -/
def format_accountability_response (data : JValue) : Except String String := do
  let mut lines : List String := []
  let generated_at := data.getD "generated_at" (.str "")
  if generated_at.truthy then
    lines := lines ++ ["Accountability Report (Generated: " ++ pyStr generated_at ++ ")"]
    lines := lines ++ [String.mk (List.replicate 50 '-')]
  let user_id := data.getD "user_id" (.str "anonymous")
  lines := lines ++ ["User: " ++ pyStr user_id]
  lines := lines ++ [""]
  let metrics := data.getD "performance_metrics" (.obj [])
  match metrics with
  | .obj _ =>
    if (metrics.getD "message" .null).truthy then
      lines := lines ++ ["Performance: " ++ pyStr (metrics.getD "message" .null)]
    else
      lines := lines ++ ["Performance Metrics:"]
      lines := lines ++ ["  - Total Goals: " ++ pyStr (metrics.getD "total_goals" (.num 0))]
      lines := lines ++ ["  - Completed: " ++ pyStr (metrics.getD "completed_goals" (.num 0))]
      lines := lines ++ ["  - In Progress: " ++ pyStr (metrics.getD "in_progress_goals" (.num 0))]
      lines := lines ++ ["  - Missed: " ++ pyStr (metrics.getD "missed_goals" (.num 0))]
      let cr ← fmtPct1 (metrics.getD "completion_rate" (.num 0))
      lines := lines ++ ["  - Completion Rate: " ++ cr]
      lines := lines ++ ["  - Productivity Trend: " ++ pyStr (metrics.getD "productivity_trend" (.str "N/A"))]
  | _ => pure ()
  lines := lines ++ [""]
  let goal_risks := data.getD "goal_risks" (.obj [])
  if goal_risks.truthy then
    lines := lines ++ ["Goal Risks:"]
    match goal_risks with
    | .obj items =>
      for item in items do
        let goal_id := item.1
        let risk_info := item.2
        match risk_info with
        | .obj _ =>
          match risk_info.getD "risk" (.str "unknown") with
          | .str risk_level =>
            let days := risk_info.getD "days_to_deadline" (.str "?")
            let eta := risk_info.getD "eta" (.str "N/A")
            lines := lines ++ ["  - Goal " ++ pySlice goal_id 8 ++ "...: " ++
              risk_level.toUpper ++ " risk (" ++ pyStr days ++
              " days to deadline, ETA: " ++ pyStr eta ++ ")"]
          | _ => throw "no attribute upper"
        | _ => throw "no attribute get"
    | _ => throw "object is not iterable"
  else
    lines := lines ++ ["Goal Risks: None"]
  lines := lines ++ [""]
  let reflection := data.getD "reflection_summary" (.obj [])
  match reflection with
  | .obj _ =>
    if (reflection.getD "message" .null).truthy then
      lines := lines ++ ["Reflections: " ++ pyStr (reflection.getD "message" .null)]
    else
      lines := lines ++ ["Reflection Summary: Available"]
  | _ => pure ()
  return String.intercalate "\n" lines

/-- Source `format_goal_created_response` (lines 89–106). -/
def format_goal_created_response (data : JValue) : Except String String := do
  let mut lines : List String := ["Goal Created Successfully!", String.mk (List.replicate 30 '-')]
  let goal_id := data.getD "goal_id" (.str "unknown")
  lines := lines ++ ["Goal ID: " ++ pyStr goal_id]
  let used_data := data.getD "used_data" (.obj [])
  if used_data.truthy then
    match used_data with
    | .obj _ =>
      lines := lines ++ ["Title: " ++ pyStr (used_data.getD "title" (.str "N/A"))]
      lines := lines ++ ["Category: " ++ pyStr (used_data.getD "category" (.str "N/A"))]
      lines := lines ++ ["Type: " ++ pyStr (used_data.getD "goal_type" (.str "N/A"))]
      lines := lines ++ ["Deadline: " ++ pyStr (used_data.getD "deadline" (.str "N/A"))]
      lines := lines ++ ["Priority: " ++ pyStr (used_data.getD "priority" (.str "N/A"))]
    | _ => throw "no attribute get"
  return String.intercalate "\n" lines

/-- Source `format_reflection_saved_response` (lines 109–119); raises nothing. -/
def format_reflection_saved_response (data : JValue) : String :=
  let base : List String := ["Reflection Saved Successfully!", String.mk (List.replicate 30 '-')]
  let reflection_id := data.getD "reflection_id" (.str "")
  let lines := if reflection_id.truthy
    then base ++ ["Reflection ID: " ++ pyStr reflection_id]
    else base
  String.intercalate "\n" lines

/-- The outcome of `resp.json()`: either the decoded body or a raised
`JSONDecodeError`. -/
inductive BodyResult where
  | parseFail : String → BodyResult
  | ok : JValue → BodyResult

/-- The observable outcome of the `httpx` POST: either an exception raised
by the transport (connection failure, timeout, DNS, …) or a response with a
status code and a body. -/
inductive HttpOutcome where
  | exc : String → HttpOutcome
  | resp : Nat → BodyResult → HttpOutcome

/-- The 200-response normalization for `progress_accountability_agent`
(lines 227–336), up to the choice between a success result text and the
`status=="error"` agent-error return (`Sum.inr`); a raised exception is an
`Except` error that the caller's `except` turns into `parse_error`. -/
def progressCore (j : JValue) : Except String (String ⊕ String) := do
  match j with
  | .obj _ => pure ()
  | _ => throw "no attribute get"
  let statusV := j.getD "status" (.str "")
  if statusV.isStrVal "ok" then
    let payload_data := j.getD "payload" (j.getD "analysis" (j.getD "report" (j.getD "insights" (.obj []))))
    match payload_data with
    | .obj _ =>
      if payload_data.hasKey "generated_at" then
        let r ← format_accountability_response payload_data
        return .inl r
      else
        return .inl (jsonDumps payload_data)
    | _ => return .inl (pyStr payload_data)
  else if statusV.isStrVal "created" then
    let r ← format_goal_created_response j
    return .inl r
  else if statusV.isStrVal "saved" then
    return .inl (format_reflection_saved_response j)
  else if statusV.isStrVal "incomplete" then
    let missing := j.getD "missing_fields" (j.getD "missing_parts" (.arr []))
    let message := j.getD "message" (.str "Some information is missing.")
    let missingStr ← if missing.truthy then pyJoin ", " missing else pure "unknown"
    return .inl (pyStr message ++ "\nMissing: " ++ missingStr)
  else if statusV.isStrVal "error" then
    let error_msg := j.getD "message" (.str "Unknown error from progress_accountability_agent")
    return .inr (pyStr error_msg)
  else
    if j.hasKey "generated_at" || j.hasKey "goal_risks" || j.hasKey "performance_metrics" then
      let r ← format_accountability_response j
      return .inl r
    else if j.hasKey "reply" then
      return .inl (pyStr (j.getD "reply" (.str "")))
    else if j.hasKey "message" then
      return .inl (pyStr (j.getD "message" (.str "")))
    else
      return .inl (jsonDumps j)

/-- The full progress/accountability 200 handler: body decoding, the core
branches, and the `except` that converts any raised exception into
`parse_error`; success carries `details = json.dumps(resp_data)`. -/
def handleProgress (rid name : String) (body : BodyResult) : AgentResponse :=
  match body with
  | .parseFail m => mkError rid name "parse_error" ("Failed to parse agent response: " ++ m)
  | .ok j =>
    match progressCore j with
    | .ok (.inl result) => mkSuccess rid name result (some (jsonDumps j))
    | .ok (.inr msg) => mkError rid name "agent_error" msg
    | .error m => mkError rid name "parse_error" ("Failed to parse agent response: " ++ m)

/-- Source `if "remaining" in resp_data: parts.append(f"Remaining: ${...:.2f}")`
(lines 348–349): the contribution of the `remaining` field, or a raised
format error. -/
def remainingPart (j : JValue) : Except String (List String) :=
  match j.get "remaining" with
  | some v => (fmtF2 v).map (fun f => ["Remaining: $" ++ f])
  | none => .ok []

/-- Source `if "project_name" in resp_data: ...` (lines 350–351). -/
def projectPart (j : JValue) : List String :=
  match j.get "project_name" with
  | some v => ["Project: " ++ pyStr v]
  | none => []

/-- Source `if "overshoot_risk" in resp_data: ...` (lines 352–353). -/
def overshootPart (j : JValue) : List String :=
  match j.get "overshoot_risk" with
  | some v => ["Overshoot Risk: " ++ pyStr v]
  | none => []

/-- Source `if "recommendations" in resp_data and resp_data["recommendations"]:
parts.append(f"Recommendations: {', '.join(...)}")` (lines 354–355); the
join can raise on non-string elements. -/
def recommendationsPart (j : JValue) : Except String (List String) :=
  match j.get "recommendations" with
  | some v =>
    if v.truthy then (pyJoin ", " v).map (fun s => ["Recommendations: " ++ s])
    else .ok []
  | none => .ok []

/-- The 200-response normalization for `budget_tracker_agent` (lines
338–391), up to the choice between a success result text and the
`success=false` agent-error return (`Sum.inr`); a raised exception is an
`Except` error that the caller's `except` turns into `parse_error`. -/
def budgetCore (j : JValue) : Except String (String ⊕ String) :=
  match j with
  | .obj _ =>
    if (j.getD "success" (.bool false)).truthy then
      let rv := j.getD "response" .null
      if rv.truthy then
        .ok (.inl (pyStr rv))
      else
        match remainingPart j with
        | .error e => .error e
        | .ok parts0 =>
          match recommendationsPart j with
          | .error e => .error e
          | .ok parts3 =>
            let parts := parts0 ++ projectPart j ++ overshootPart j ++ parts3
            .ok (.inl (if parts.isEmpty then pyStr j else String.intercalate ". " parts))
    else
      .ok (.inr (pyStr (j.getD "error" (j.getD "message" (.str "Unknown error from budget tracker agent")))))
  | _ => .error "no attribute get"

/-- The full budget-tracker 200 handler, with its `except` converting raised
exceptions into `parse_error`; success carries
`details = json.dumps(resp_data) if resp_data else None`. -/
def handleBudget (rid name : String) (body : BodyResult) : AgentResponse :=
  match body with
  | .parseFail m => mkError rid name "parse_error" ("Failed to parse agent response: " ++ m)
  | .ok j =>
    match budgetCore j with
    | .ok (.inl result) =>
      mkSuccess rid name result (if j.truthy then some (jsonDumps j) else none)
    | .ok (.inr msg) => mkError rid name "agent_error" msg
    | .error m => mkError rid name "parse_error" ("Failed to parse agent response: " ++ m)

/-- Source `call_agent` (lines 122–421).  The generated `request_id` (a UUID) and
the availability of the `httpx` library are inputs; the wire interaction is
an `HttpOutcome` input (the payload POSTed on the wire is
`buildPayload meta intent text ctx handshake`, stated separately).  The
unused `custom_input` parameter of the source is carried but never read.
Every Python exception path is explicit: exceptions inside the HTTP block
that no inner handler catches (transport errors, `resp.json()` or pydantic
`ValidationError` on the generic decode path) reach the outer `except` and
become `network_error`. -/
def callAgent (httpxAvailable : Bool) (requestId : String) (meta : AgentMetadata)
    (intent text : String) (ctx : Context) (customInput : Option JValue)
    (outcome : HttpOutcome) : AgentResponse :=
  let metadata := buildMetadata ctx.file_uploads
  let handshake : AgentRequest := ⟨requestId, meta.name, intent, text, metadata, ctx⟩
  if meta.type == "http" && optTruthy meta.endpoint && httpxAvailable then
    match outcome with
    | .exc m => mkError requestId meta.name "network_error" m
    | .resp code body =>
      if code != 200 then
        mkError requestId meta.name "http_error"
          ("HTTP " ++ toString code ++ " calling " ++ meta.endpoint.getD "")
      else if meta.name == "progress_accountability_agent" then
        handleProgress requestId meta.name body
      else if meta.name == "budget_tracker_agent" then
        handleBudget requestId meta.name body
      else
        match body with
        | .parseFail m => mkError requestId meta.name "network_error" m
        | .ok j =>
          match parseAgentResponse j with
          | .ok r => r
          | .error m => mkError requestId meta.name "network_error" m
  else if meta.type == "http" && !httpxAvailable then
    mkError requestId meta.name "config_error" "httpx not installed for HTTP agent calls"
  else if meta.type == "cli" then
    mkError requestId meta.name "not_implemented" "CLI agent execution is not implemented"
  else
    mkError requestId meta.name "config_error" "Agent endpoint/command not configured"

/-! ## `app/combine.py` and `app/history.py` -/

/-- The LLM configuration both modules probe the same way: whether the
`openai` import succeeded (`OpenAI is not None`) and the value of
`os.getenv("OPENROUTER_API_KEY")`. -/
structure LlmEnv where
  openaiAvailable : Bool
  apiKey : Option String
  deriving DecidableEq, Repr

/-- The observable outcome of the LLM interaction when it is attempted:
client construction raised, the chat call raised, the call returned no
choices, or it returned a first-choice message content. -/
inductive LlmOutcome where
  | initFail : String → LlmOutcome
  | callFail : String → LlmOutcome
  | noChoices : LlmOutcome
  | reply : String → LlmOutcome
  deriving DecidableEq, Repr

/-- One line of the `_fallback` stitcher inside `combine_tool_outputs`
(combine.py lines 28–37): `"<agent>: <result>"` for a `success` status,
`"<agent>: failed (<error>)"` otherwise (absent keys render as `None`,
as Python f-strings do). -/
def renderToolOutput (entry : ToolOutput) : String :=
  if entry.status == some "success" then
    pyShowOpt entry.agent ++ ": " ++ pyShowOpt entry.result
  else
    pyShowOpt entry.agent ++ ": failed (" ++ pyShowOpt entry.error ++ ")"

/-- Source `_fallback` of `combine_tool_outputs` (lines 27–39): stitch the rendered
lines with `" | "`, or the fixed sentence when there are none. -/
def combineFallback (req : CombinedAnswerRequest) : CombinedAnswerResponse :=
  let lines := req.tool_outputs.map renderToolOutput
  ⟨if lines.isEmpty then "No tool outputs available." else String.intercalate " | " lines⟩

/-- Source `combine_tool_outputs` (combine.py lines 24–84): fall back when the
client library or the API key is missing, when client construction or the
chat call raises, or when the reply has no choices; otherwise return the
first choice's content, stripped. -/
def combine_tool_outputs (env : LlmEnv) (llm : LlmOutcome)
    (req : CombinedAnswerRequest) : CombinedAnswerResponse :=
  if !env.openaiAvailable || !optTruthy env.apiKey then
    combineFallback req
  else
    match llm with
    | .initFail _ => combineFallback req
    | .callFail _ => combineFallback req
    | .noChoices => combineFallback req
    | .reply content => ⟨content.trim⟩

/-- One turn of the conversation history: a Python dict read with
`m.get('role')` and `m.get('content', '')`. -/
structure HistoryMsg where
  role : Option String
  content : Option String
  deriving DecidableEq, Repr

/-- Source `_fallback` of `summarize_history` (history.py lines 31–35): render the
last six turns as `"role: content"` joined by `" | "`, truncate to 500
characters, and add the fixed fallback heading. -/
def summarizeFallback (history : List HistoryMsg) : String :=
  let parts := (history.drop (history.length - 6)).map
    (fun m => pyShowOpt m.role ++ ": " ++ m.content.getD "")
  let joined := String.intercalate " | " parts
  "Conversation summary (fallback): " ++ pySlice joined 500

/-- Source `summarize_history` (history.py lines 22–71): empty history returns the
empty string; the LLM path is tried only when the client library and a
truthy API key are present and degrades to the fallback on any failure. -/
def summarize_history (env : LlmEnv) (llm : LlmOutcome)
    (history : List HistoryMsg) : String :=
  if history.isEmpty then ""
  else if !env.openaiAvailable || !optTruthy env.apiKey then
    summarizeFallback history
  else
    match llm with
    | .initFail _ => summarizeFallback history
    | .callFail _ => summarizeFallback history
    | .noChoices => summarizeFallback history
    | .reply content => content.trim

/-! ## Claims -/

/-- Claim C7: with the LLM unconfigured (no client library or no API key),
`combine_tool_outputs` deterministically renders each tool output in input
order as `"<agent>: <result>"` when its status is `success` and
`"<agent>: failed (<error>)"` otherwise, joined by `" | "`, and returns the
fixed "no tool outputs available" sentence when there are zero tool
outputs. -/
theorem combine_fallback_rendering (env : LlmEnv) (llm : LlmOutcome)
    (req : CombinedAnswerRequest)
    (h : env.openaiAvailable = false ∨ optTruthy env.apiKey = false) :
    combine_tool_outputs env llm req =
      ⟨if req.tool_outputs = [] then "No tool outputs available."
        else String.intercalate " | " (req.tool_outputs.map (fun entry =>
          if entry.status = some "success" then
            pyShowOpt entry.agent ++ ": " ++ pyShowOpt entry.result
          else
            pyShowOpt entry.agent ++ ": failed (" ++ pyShowOpt entry.error ++ ")"))⟩ := by
  have hcond : (!env.openaiAvailable || !optTruthy env.apiKey) = true := by
    rcases h with h | h <;> simp [h]
  have hmap : req.tool_outputs.map renderToolOutput =
      req.tool_outputs.map (fun entry =>
        if entry.status = some "success" then
          pyShowOpt entry.agent ++ ": " ++ pyShowOpt entry.result
        else
          pyShowOpt entry.agent ++ ": failed (" ++ pyShowOpt entry.error ++ ")") := by
    apply List.map_congr_left
    intro entry _
    by_cases hs : entry.status = some "success" <;> simp [renderToolOutput, hs]
  by_cases hout : req.tool_outputs = []
  · simp [combine_tool_outputs, hcond, combineFallback, hout]
  · simp [combine_tool_outputs, hcond, combineFallback, hout, hmap,
      List.isEmpty_iff]

/-- Claim C7 witness. -/
theorem combine_fallback_rendering_witness :
    combine_tool_outputs ⟨false, none⟩ .noChoices
        ⟨"q", [⟨some "a", some "success", some "r", none⟩,
               ⟨some "b", some "error", none, some "boom"⟩], none⟩ =
      ⟨"a: r | b: failed (boom)"⟩
    ∧ combine_tool_outputs ⟨false, none⟩ .noChoices ⟨"q", [], none⟩ =
      ⟨"No tool outputs available."⟩ := by
  constructor
  · have h := combine_fallback_rendering ⟨false, none⟩ .noChoices
      ⟨"q", [⟨some "a", some "success", some "r", none⟩,
             ⟨some "b", some "error", none, some "boom"⟩], none⟩ (Or.inl rfl)
    simpa [pyShowOpt, String.intercalate] using h
  · have h := combine_fallback_rendering ⟨false, none⟩ .noChoices ⟨"q", [], none⟩
      (Or.inl rfl)
    simpa using h

/-- Claim C10: when the LLM path is unavailable, the output of
`combine_tool_outputs` depends only on the request's `tool_outputs`: two
requests with equal `tool_outputs` yield identical combined answers no
matter how their `user_query` or `history_summary` differ. -/
theorem combine_fallback_noninterference (env : LlmEnv) (llm : LlmOutcome)
    (r₁ r₂ : CombinedAnswerRequest)
    (h : env.openaiAvailable = false ∨ optTruthy env.apiKey = false)
    (houts : r₁.tool_outputs = r₂.tool_outputs) :
    combine_tool_outputs env llm r₁ = combine_tool_outputs env llm r₂ := by
  have hcond : (!env.openaiAvailable || !optTruthy env.apiKey) = true := by
    rcases h with h | h <;> simp [h]
  simp [combine_tool_outputs, hcond, combineFallback, houts]

/-- Claim C10 witness: two requests differing in both `user_query` and
`history_summary` but sharing `tool_outputs` get the same answer. -/
theorem combine_fallback_noninterference_witness :
    combine_tool_outputs ⟨false, some ""⟩ .noChoices
        ⟨"what is my budget", [⟨some "a", some "success", some "r", none⟩], none⟩ =
      combine_tool_outputs ⟨false, some ""⟩ .noChoices
        ⟨"delete everything", [⟨some "a", some "success", some "r", none⟩],
          some "user asked things"⟩ :=
  combine_fallback_noninterference ⟨false, some ""⟩ .noChoices _ _
    (Or.inl rfl) rfl

/-- Claim C8: `summarize_history` of an empty history is the empty string; for a
non-empty history with no LLM configured it returns the last six turns
rendered `"role: content"` joined by `" | "`, truncated to 500 characters
and prefixed with the fixed fallback heading, so its length is bounded by
the heading's length plus 500. -/
theorem summarize_history_fallback (env : LlmEnv) (llm : LlmOutcome)
    (history : List HistoryMsg) :
    summarize_history env llm [] = ""
    ∧ (history ≠ [] →
        (env.openaiAvailable = false ∨ optTruthy env.apiKey = false) →
        summarize_history env llm history =
          "Conversation summary (fallback): " ++
            pySlice (String.intercalate " | "
              ((history.drop (history.length - 6)).map
                (fun m => pyShowOpt m.role ++ ": " ++ m.content.getD ""))) 500
        ∧ (summarize_history env llm history).length ≤
            (String.length "Conversation summary (fallback): ") + 500) := by
  constructor
  · simp [summarize_history]
  · intro hne h
    have hcond : (!env.openaiAvailable || !optTruthy env.apiKey) = true := by
      rcases h with h | h <;> simp [h]
    have hempty : history.isEmpty = false := by
      simpa [List.isEmpty_iff] using hne
    have heq : summarize_history env llm history = summarizeFallback history := by
      simp [summarize_history, hempty, hcond]
    refine ⟨by rw [heq]; rfl, ?_⟩
    rw [heq]
    unfold summarizeFallback
    rw [String.length_append]
    have htake : (pySlice (String.intercalate " | "
        ((history.drop (history.length - 6)).map
          (fun m => pyShowOpt m.role ++ ": " ++ m.content.getD ""))) 500).length ≤ 500 := by
      unfold pySlice
      show (List.take 500 _).length ≤ 500
      simpa using List.length_take_le 500 _
    omega

/-- Claim C8 witness. -/
theorem summarize_history_fallback_witness :
    summarize_history ⟨true, none⟩ .noChoices [] = ""
    ∧ summarize_history ⟨true, none⟩ .noChoices
        [⟨some "user", some "hi"⟩, ⟨some "assistant", some "hello"⟩] =
      "Conversation summary (fallback): user: hi | assistant: hello"
    ∧ (summarize_history ⟨true, none⟩ .noChoices
        [⟨some "user", some "hi"⟩, ⟨some "assistant", some "hello"⟩]).length ≤
        (String.length "Conversation summary (fallback): ") + 500 := by
  have h := summarize_history_fallback ⟨true, none⟩ .noChoices
    [⟨some "user", some "hi"⟩, ⟨some "assistant", some "hello"⟩]
  have h2 := h.2 (by simp) (Or.inr rfl)
  exact ⟨h.1, by simpa [pySlice, pyShowOpt] using h2.1, h2.2⟩

/-- Only the intent `goal.update` is mapped to the task `goal` by the fixed
intent → task table. -/
theorem lookup_goal_only_goal_update (intent : String)
    (h : PROGRESS_AGENT_INTENT_MAP.lookup intent = some "goal") :
    intent = "goal.update" := by
  simp only [PROGRESS_AGENT_INTENT_MAP, List.lookup] at h
  repeat' split at h
  all_goals simp_all

/-- Claim C2 counterexample: for the table intent `goal.update` the POSTed `task`
field is `freeform_message`, not the table's mapped value `goal`. -/
theorem progress_goal_update_task_counterexample :
    (buildPayload ⟨"progress_accountability_agent", "http", some "http://agents/progress", 15000⟩
        "goal.update" "update my goal" ⟨none, none, none, []⟩
        ⟨"r1", "progress_accountability_agent", "goal.update", "update my goal",
          ⟨"en", [], none, none, none⟩, ⟨none, none, none, []⟩⟩).taskField =
      some "freeform_message"
    ∧ PROGRESS_AGENT_INTENT_MAP.lookup "goal.update" = some "goal"
    ∧ ("freeform_message" : String) ≠ "goal" := by
  decide

/-- Claim C2 amended: for the progress/accountability agent the POSTed payload's
`task` equals the table's mapped value (default `accountability` for intents
outside the table) for every intent except `goal.update`, whose mapped value
`goal` is rewritten to `freeform_message` before sending. -/
theorem progress_payload_task_mapping (meta : AgentMetadata) (intent text : String)
    (ctx : Context) (handshake : AgentRequest)
    (hname : meta.name = "progress_accountability_agent") :
    (intent ≠ "goal.update" →
      (buildPayload meta intent text ctx handshake).taskField =
        some ((PROGRESS_AGENT_INTENT_MAP.lookup intent).getD "accountability"))
    ∧ (intent = "goal.update" →
      (buildPayload meta intent text ctx handshake).taskField =
        some "freeform_message") := by
  have hshape : buildPayload meta intent text ctx handshake =
      .progress (ctx.user_id.getD "anonymous")
        (buildProgressTaskParams intent text ctx).1
        (buildProgressTaskParams intent text ctx).2 := by
    simp [buildPayload, hname]
  constructor
  · intro hne
    rw [hshape]
    show some (buildProgressTaskParams intent text ctx).1 = _
    unfold buildProgressTaskParams
    by_cases h1 : (PROGRESS_AGENT_INTENT_MAP.lookup intent).getD "accountability" =
        "freeform_message"
    · simp [h1]
    · by_cases h2 : (PROGRESS_AGENT_INTENT_MAP.lookup intent).getD "accountability" =
          "goal"
      · exfalso
        apply hne
        apply lookup_goal_only_goal_update
        rcases hl : PROGRESS_AGENT_INTENT_MAP.lookup intent with _ | v
        · rw [hl] at h2; simp at h2
        · rw [hl] at h2; simp at h2; rw [h2]
      · simp [h1, h2, hne]
  · intro he
    subst he
    rw [hshape]
    show some (buildProgressTaskParams "goal.update" text ctx).1 = _
    have hl : PROGRESS_AGENT_INTENT_MAP.lookup "goal.update" = some "goal" := by decide
    simp [buildProgressTaskParams, hl]

/-- Claim C2 amended witness. -/
theorem progress_payload_task_mapping_witness :
    (buildPayload ⟨"progress_accountability_agent", "http", some "http://agents/progress", 15000⟩
        "productivity.report" "report please" ⟨none, none, none, []⟩
        ⟨"r2", "progress_accountability_agent", "productivity.report", "report please",
          ⟨"en", [], none, none, none⟩, ⟨none, none, none, []⟩⟩).taskField =
      some ((PROGRESS_AGENT_INTENT_MAP.lookup "productivity.report").getD "accountability")
    ∧ (buildPayload ⟨"progress_accountability_agent", "http", some "http://agents/progress", 15000⟩
        "goal.update" "update my goal" ⟨none, none, none, []⟩
        ⟨"r2", "progress_accountability_agent", "goal.update", "update my goal",
          ⟨"en", [], none, none, none⟩, ⟨none, none, none, []⟩⟩).taskField =
      some "freeform_message" := by
  constructor
  · exact (progress_payload_task_mapping _ "productivity.report" "report please" _ _
      rfl).1 (by decide)
  · exact (progress_payload_task_mapping _ "goal.update" "update my goal" _ _
      rfl).2 rfl

/-- Claim C3: with intent `goal.update` and a context carrying truthy `goal_id`
and `progress`, the POSTed `params` nonetheless carries neither (the direct
progress-update branch of the source is unreachable): the payload's params
are just the freeform `message`. -/
theorem goal_update_params_drop_goal_id :
    optTruthy ((⟨none, some "goal-123", some "50", []⟩ : Context).goal_id) = true
    ∧ optTruthy ((⟨none, some "goal-123", some "50", []⟩ : Context).progress) = true
    ∧ (buildPayload ⟨"progress_accountability_agent", "http", some "http://agents/progress", 15000⟩
        "goal.update" "update my goal" ⟨none, some "goal-123", some "50", []⟩
        ⟨"r3", "progress_accountability_agent", "goal.update", "update my goal",
          ⟨"en", [], none, none, none⟩, ⟨none, some "goal-123", some "50", []⟩⟩).paramsField =
      some ⟨some "update my goal", none, none⟩ := by
  decide

/-- Claim C5: non-200 HTTP statuses, the `cli` transport, HTTP without the client
library, and unconfigured transports are classified exactly as the source's
four tail branches do. -/
theorem call_agent_transport_classification (hx : Bool) (rid : String)
    (meta : AgentMetadata) (intent text : String) (ctx : Context)
    (ci : Option JValue) :
    (∀ code body, meta.type = "http" → optTruthy meta.endpoint = true → hx = true →
      code ≠ 200 →
      callAgent hx rid meta intent text ctx ci (.resp code body) =
        mkError rid meta.name "http_error"
          ("HTTP " ++ toString code ++ " calling " ++ meta.endpoint.getD ""))
    ∧ (∀ outcome, meta.type = "cli" →
      callAgent hx rid meta intent text ctx ci outcome =
        mkError rid meta.name "not_implemented" "CLI agent execution is not implemented")
    ∧ (∀ outcome, meta.type = "http" → hx = false →
      callAgent hx rid meta intent text ctx ci outcome =
        mkError rid meta.name "config_error" "httpx not installed for HTTP agent calls")
    ∧ (∀ outcome, (meta.type ≠ "http" ∧ meta.type ≠ "cli") ∨
        (meta.type = "http" ∧ hx = true ∧ optTruthy meta.endpoint = false) →
      callAgent hx rid meta intent text ctx ci outcome =
        mkError rid meta.name "config_error" "Agent endpoint/command not configured") := by
  refine ⟨?_, ?_, ?_, ?_⟩
  · intro code body htype hend hhx hcode
    simp [callAgent, htype, hend, hhx, hcode]
  · intro outcome htype
    simp [callAgent, htype]
  · intro outcome htype hhx
    simp [callAgent, htype, hhx]
  · intro outcome h
    rcases h with ⟨h1, h2⟩ | ⟨h1, h2, h3⟩
    · simp [callAgent, h1, h2]
    · simp [callAgent, h1, h2, h3]

/-- Claim C5 witness: the four branches at concrete inputs. -/
theorem call_agent_transport_classification_witness :
    callAgent true "r" ⟨"a", "http", some "http://e", 1000⟩ "i" "t"
        ⟨none, none, none, []⟩ none (.resp 500 (.ok (.obj []))) =
      mkError "r" "a" "http_error" ("HTTP " ++ toString 500 ++ " calling " ++ "http://e")
    ∧ callAgent true "r" ⟨"a", "cli", none, 1000⟩ "i" "t"
        ⟨none, none, none, []⟩ none (.exc "x") =
      mkError "r" "a" "not_implemented" "CLI agent execution is not implemented"
    ∧ callAgent false "r" ⟨"a", "http", some "http://e", 1000⟩ "i" "t"
        ⟨none, none, none, []⟩ none (.exc "x") =
      mkError "r" "a" "config_error" "httpx not installed for HTTP agent calls"
    ∧ callAgent true "r" ⟨"a", "sse", some "http://e", 1000⟩ "i" "t"
        ⟨none, none, none, []⟩ none (.exc "x") =
      mkError "r" "a" "config_error" "Agent endpoint/command not configured" := by
  refine ⟨?_, ?_, ?_, ?_⟩
  · exact (call_agent_transport_classification true "r" ⟨"a", "http", some "http://e", 1000⟩
      "i" "t" ⟨none, none, none, []⟩ none).1 500 (.ok (.obj [])) rfl rfl rfl (by decide)
  · exact (call_agent_transport_classification true "r" ⟨"a", "cli", none, 1000⟩
      "i" "t" ⟨none, none, none, []⟩ none).2.1 (.exc "x") rfl
  · exact (call_agent_transport_classification false "r" ⟨"a", "http", some "http://e", 1000⟩
      "i" "t" ⟨none, none, none, []⟩ none).2.2.1 (.exc "x") rfl rfl
  · exact (call_agent_transport_classification true "r" ⟨"a", "sse", some "http://e", 1000⟩
      "i" "t" ⟨none, none, none, []⟩ none).2.2.2 (.exc "x") (Or.inl ⟨by decide, by decide⟩)

/-- Claim C9 counterexample: a non-empty `file_uploads` whose first upload has an
empty `base64_data` puts nothing into the request metadata, contradicting
the unconditional claim. -/
theorem file_upload_empty_base64_counterexample :
    ((⟨none, none, none, [⟨some "", some "application/pdf", some "a.pdf"⟩]⟩ : Context).file_uploads ≠ [])
    ∧ (buildMetadata [⟨some "", some "application/pdf", some "a.pdf"⟩]).file_base64 = none
    ∧ (buildMetadata [⟨some "", some "application/pdf", some "a.pdf"⟩]).mime_type = none
    ∧ (buildMetadata [⟨some "", some "application/pdf", some "a.pdf"⟩]).filename = none := by
  decide

/-- Claim C9 amended: when `file_uploads` is non-empty and its first upload's
`base64_data` is non-empty, the request metadata carries exactly the first
upload's base64 payload, MIME type and filename (with the source's
defaults), and carries data from no other upload: the metadata is the same
as if the first upload were the only one. -/
theorem file_upload_first_only (first : FileUpload) (rest : List FileUpload)
    (hb : first.base64_data.getD "" ≠ "") :
    buildMetadata (first :: rest) =
      ⟨"en", [], some (first.base64_data.getD ""),
        some (first.mime_type.getD "application/octet-stream"),
        some (first.filename.getD "uploaded_file")⟩
    ∧ buildMetadata (first :: rest) = buildMetadata [first] := by
  constructor <;> simp [buildMetadata, hb]

/-- Claim C9 amended witness: a second upload is present and ignored. -/
theorem file_upload_first_only_witness :
    buildMetadata [⟨some "QUJD", none, none⟩, ⟨some "Wlpa", some "image/png", some "b.png"⟩] =
      ⟨"en", [], some "QUJD", some "application/octet-stream", some "uploaded_file"⟩
    ∧ buildMetadata [⟨some "QUJD", none, none⟩, ⟨some "Wlpa", some "image/png", some "b.png"⟩] =
      buildMetadata [⟨some "QUJD", none, none⟩] := by
  have h := file_upload_first_only ⟨some "QUJD", none, none⟩
    [⟨some "Wlpa", some "image/png", some "b.png"⟩] (by decide)
  exact ⟨h.1, h.2⟩

/-- Every result of the progress/accountability 200 handler is either a
constructed success envelope or a constructed error envelope. -/
theorem handleProgress_shape (rid name : String) (body : BodyResult) :
    (∃ r d, handleProgress rid name body = mkSuccess rid name r d)
    ∨ (∃ t m, handleProgress rid name body = mkError rid name t m) := by
  rcases body with m | j
  · right; exact ⟨"parse_error", "Failed to parse agent response: " ++ m, rfl⟩
  · rcases hc : progressCore j with m | rs
    · right
      exact ⟨"parse_error", "Failed to parse agent response: " ++ m,
        by simp [handleProgress, hc]⟩
    · rcases rs with r | msg
      · left; exact ⟨r, some (jsonDumps j), by simp [handleProgress, hc]⟩
      · right; exact ⟨"agent_error", msg, by simp [handleProgress, hc]⟩

/-- Every result of the budget-tracker 200 handler is either a constructed
success envelope or a constructed error envelope. -/
theorem handleBudget_shape (rid name : String) (body : BodyResult) :
    (∃ r d, handleBudget rid name body = mkSuccess rid name r d)
    ∨ (∃ t m, handleBudget rid name body = mkError rid name t m) := by
  rcases body with m | j
  · right; exact ⟨"parse_error", "Failed to parse agent response: " ++ m, rfl⟩
  · rcases hc : budgetCore j with m | rs
    · right
      exact ⟨"parse_error", "Failed to parse agent response: " ++ m,
        by simp [handleBudget, hc]⟩
    · rcases rs with r | msg
      · left
        exact ⟨r, if j.truthy = true then some (jsonDumps j) else none,
          by simp [handleBudget, hc]⟩
      · right; exact ⟨"agent_error", msg, by simp [handleBudget, hc]⟩

/-- Claim C1: `call_agent` never raises — on the live-HTTP path any transport
exception is returned as a `network_error` envelope carrying the
exception's text, and on every path where the source itself constructs the
response (the two known-agent handlers and all non-dispatchable branches)
the returned envelope has `status="error"` exactly when a populated
`ErrorModel` is present. -/
theorem call_agent_never_raises (hx : Bool) (rid : String) (meta : AgentMetadata)
    (intent text : String) (ctx : Context) (ci : Option JValue) :
    (∀ m, meta.type = "http" → optTruthy meta.endpoint = true → hx = true →
      callAgent hx rid meta intent text ctx ci (.exc m) =
        mkError rid meta.name "network_error" m)
    ∧ (∀ outcome,
        (meta.name = "progress_accountability_agent" ∨
         meta.name = "budget_tracker_agent" ∨
         ¬(meta.type = "http" ∧ optTruthy meta.endpoint = true ∧ hx = true)) →
        ((callAgent hx rid meta intent text ctx ci outcome).status = "error" ↔
         (callAgent hx rid meta intent text ctx ci outcome).error ≠ none)) := by
  constructor
  · intro m htype hend hhx
    simp [callAgent, htype, hend, hhx]
  · intro outcome hcase
    by_cases hpre : meta.type = "http" ∧ optTruthy meta.endpoint = true ∧ hx = true
    · obtain ⟨htype, hend, hhx⟩ := hpre
      rcases outcome with m | ⟨code, body⟩
      · have hred : callAgent hx rid meta intent text ctx ci (.exc m) =
            mkError rid meta.name "network_error" m := by
          simp [callAgent, htype, hend, hhx]
        rw [hred]; simp [mkError]
      · by_cases hcode : code = 200
        · subst hcode
          have hname : meta.name = "progress_accountability_agent" ∨
              meta.name = "budget_tracker_agent" := by
            rcases hcase with h | h | h
            · exact Or.inl h
            · exact Or.inr h
            · exact absurd ⟨htype, hend, hhx⟩ h
          rcases hname with hname | hname
          · have hred : callAgent hx rid meta intent text ctx ci (.resp 200 body) =
                handleProgress rid meta.name body := by
              simp [callAgent, htype, hend, hhx, hname]
            rw [hred]
            rcases handleProgress_shape rid meta.name body with ⟨r, d, hs⟩ | ⟨t, m, hs⟩
            · rw [hs]; simp [mkSuccess]
            · rw [hs]; simp [mkError]
          · have hbne : meta.name ≠ "progress_accountability_agent" := by
              rw [hname]; decide
            have hred : callAgent hx rid meta intent text ctx ci (.resp 200 body) =
                handleBudget rid meta.name body := by
              simp [callAgent, htype, hend, hhx, hname, hbne]
            rw [hred]
            rcases handleBudget_shape rid meta.name body with ⟨r, d, hs⟩ | ⟨t, m, hs⟩
            · rw [hs]; simp [mkSuccess]
            · rw [hs]; simp [mkError]
        · have hred : callAgent hx rid meta intent text ctx ci (.resp code body) =
              mkError rid meta.name "http_error"
                ("HTTP " ++ toString code ++ " calling " ++ meta.endpoint.getD "") := by
            simp [callAgent, htype, hend, hhx, hcode]
          rw [hred]; simp [mkError]
    · have hred : (callAgent hx rid meta intent text ctx ci outcome).error ≠ none ∧
          (callAgent hx rid meta intent text ctx ci outcome).status = "error" := by
        simp only [callAgent]
        have hb : (meta.type == "http" && optTruthy meta.endpoint && hx) = false := by
          rcases Bool.eq_false_or_eq_true
              (meta.type == "http" && optTruthy meta.endpoint && hx) with h | h
          · simp only [Bool.and_eq_true, beq_iff_eq] at h
            exact absurd ⟨h.1.1, h.1.2, h.2⟩ hpre
          · exact h
        rw [hb]
        by_cases hh : (meta.type == "http" && !hx) = true <;>
          by_cases hcli : (meta.type == "cli") = true <;>
            simp [hh, hcli, mkError]
      rw [hred.2]
      simp [hred.1]

/-- Claim C1 witness. -/
theorem call_agent_never_raises_witness :
    callAgent true "r" ⟨"a", "http", some "http://e", 1000⟩ "i" "t"
        ⟨none, none, none, []⟩ none (.exc "Connection refused") =
      mkError "r" "a" "network_error" "Connection refused"
    ∧ ((callAgent true "r" ⟨"progress_accountability_agent", "http", some "http://e", 1000⟩
          "i" "t" ⟨none, none, none, []⟩ none (.resp 200 (.parseFail "bad json"))).status = "error" ↔
       (callAgent true "r" ⟨"progress_accountability_agent", "http", some "http://e", 1000⟩
          "i" "t" ⟨none, none, none, []⟩ none (.resp 200 (.parseFail "bad json"))).error ≠ none) := by
  constructor
  · exact (call_agent_never_raises true "r" ⟨"a", "http", some "http://e", 1000⟩
      "i" "t" ⟨none, none, none, []⟩ none).1 "Connection refused" rfl rfl rfl
  · exact (call_agent_never_raises true "r"
      ⟨"progress_accountability_agent", "http", some "http://e", 1000⟩
      "i" "t" ⟨none, none, none, []⟩ none).2 (.resp 200 (.parseFail "bad json"))
      (Or.inl rfl)

/-- A string of positive length is not the empty string. -/
theorem ne_empty_of_length_pos (s : String) (h : 0 < s.length) : s ≠ "" := by
  intro he
  rw [he] at h
  simp [String.length] at h

/-- Appending cannot shrink a non-empty left part to nothing. -/
theorem append_ne_empty_left (a b : String) (ha : a ≠ "") : a ++ b ≠ "" := by
  apply ne_empty_of_length_pos
  have hpos : 0 < a.length := by
    rcases Nat.eq_zero_or_pos a.length with h0 | h0
    · exfalso
      apply ha
      apply String.ext
      have : a.data.length = 0 := h0
      simpa using List.length_eq_zero.mp this
    · exact h0
  calc 0 < a.length := hpos
    _ ≤ (a ++ b).length := by rw [String.length_append]; omega

/-- The accumulator of `String.intercalate.go` is a length lower bound of
its result. -/
theorem intercalate_go_length (s : String) :
    ∀ (l : List String) (acc : String),
      acc.length ≤ (String.intercalate.go acc s l).length := by
  intro l
  induction l with
  | nil => intro acc; exact Nat.le_refl _
  | cons a as ih =>
    intro acc
    calc acc.length ≤ (acc ++ s ++ a).length := by
          rw [String.length_append, String.length_append]; omega
      _ ≤ (String.intercalate.go (acc ++ s ++ a) s as).length := ih _
      _ = (String.intercalate.go acc s (a :: as)).length := rfl

/-- Joining a list whose head is non-empty yields a non-empty string. -/
theorem intercalate_cons_ne_empty (sep p : String) (ps : List String)
    (hp : p ≠ "") : String.intercalate sep (p :: ps) ≠ "" := by
  apply ne_empty_of_length_pos
  have h1 : p.length ≤ (String.intercalate sep (p :: ps)).length :=
    intercalate_go_length sep ps p
  have hpos : 0 < p.length := by
    rcases Nat.eq_zero_or_pos p.length with h0 | h0
    · exfalso
      apply hp
      apply String.ext
      have : p.data.length = 0 := h0
      simpa using List.length_eq_zero.mp this
    · exact h0
  omega

/-- Python `str(resp_data)` of a dict is never empty (it is at least the
surrounding braces). -/
theorem pyStr_obj_ne_empty (fields : List (String × JValue)) :
    pyStr (.obj fields) ≠ "" := by
  rw [show pyStr (.obj fields) = pyRepr (.obj fields) from rfl, pyRepr]
  apply append_ne_empty_left
  apply append_ne_empty_left
  decide

/-- The synthesized budget result text — either the joined non-empty parts
or `str(resp_data)` — is never empty. -/
theorem parts_result_ne_empty (fields : List (String × JValue))
    (parts : List String) (h : ∀ p, parts.head? = some p → p ≠ "") :
    (if parts.isEmpty then pyStr (.obj fields)
     else String.intercalate ". " parts) ≠ "" := by
  cases parts with
  | nil => simpa using pyStr_obj_ne_empty fields
  | cons p ps =>
    simp only [List.isEmpty_cons, Bool.false_eq_true, if_false]
    exact intercalate_cons_ne_empty _ _ _ (h p rfl)

/-- When the budget agent replies `success` truthy with no truthy `response`
field and the synthesis fields are well-typed, the normalization produces a
success text that is never empty. -/
theorem budgetCore_synth (fields : List (String × JValue))
    (hsucc : (JValue.getD (.obj fields) "success" (.bool false)).truthy = true)
    (hresp : (JValue.getD (.obj fields) "response" .null).truthy = false)
    (hrem : ∀ v, JValue.get (.obj fields) "remaining" = some v → ∃ n, v = JValue.num n)
    (hrec : ∀ v, JValue.get (.obj fields) "recommendations" = some v →
      ∃ xs, v = JValue.arr xs ∧ ∃ ss, strElems xs = .ok ss) :
    ∃ R, budgetCore (.obj fields) = .ok (.inl R) ∧ R ≠ "" := by
  have hl1 : ∃ l, remainingPart (.obj fields) = .ok l ∧ ∀ p ∈ l, p ≠ "" := by
    unfold remainingPart
    rcases hg : JValue.get (.obj fields) "remaining" with _ | v
    · exact ⟨[], rfl, by simp⟩
    · obtain ⟨n, hn⟩ := hrem v hg
      subst hn
      refine ⟨["Remaining: $" ++ (toString n ++ ".00")], rfl, ?_⟩
      intro p hp
      simp only [List.mem_singleton] at hp
      subst hp
      exact append_ne_empty_left _ _ (by decide)
  have hl2 : ∀ p ∈ projectPart (.obj fields), p ≠ "" := by
    unfold projectPart
    rcases hg : JValue.get (.obj fields) "project_name" with _ | v
    · simp
    · intro p hp
      simp only [List.mem_singleton] at hp
      subst hp
      exact append_ne_empty_left _ _ (by decide)
  have hl3 : ∀ p ∈ overshootPart (.obj fields), p ≠ "" := by
    unfold overshootPart
    rcases hg : JValue.get (.obj fields) "overshoot_risk" with _ | v
    · simp
    · intro p hp
      simp only [List.mem_singleton] at hp
      subst hp
      exact append_ne_empty_left _ _ (by decide)
  have hl4 : ∃ l, recommendationsPart (.obj fields) = .ok l ∧ ∀ p ∈ l, p ≠ "" := by
    unfold recommendationsPart
    rcases hg : JValue.get (.obj fields) "recommendations" with _ | v
    · exact ⟨[], rfl, by simp⟩
    · obtain ⟨xs, hxs, ss, hss⟩ := hrec v hg
      subst hxs
      dsimp only
      rcases Bool.eq_false_or_eq_true (JValue.truthy (.arr xs)) with ht | ht
      case inr =>
        rw [if_neg (by simp [ht])]
        exact ⟨[], rfl, by simp⟩
      case inl =>
        rw [if_pos ht]
        rw [show pyJoin ", " (.arr xs) = (strElems xs).map (String.intercalate ", ") from rfl,
          hss]
        refine ⟨["Recommendations: " ++ String.intercalate ", " ss], rfl, ?_⟩
        intro p hp
        simp only [List.mem_singleton] at hp
        subst hp
        exact append_ne_empty_left _ _ (by decide)
  obtain ⟨l1, he1, hm1⟩ := hl1
  obtain ⟨l4, he4, hm4⟩ := hl4
  unfold budgetCore
  simp only [hsucc, hresp, if_true, Bool.false_eq_true, if_false, he1, he4]
  refine ⟨_, rfl, parts_result_ne_empty fields _ ?_⟩
  intro p hp
  have hp' := List.mem_of_mem_head? (by rw [hp]; exact rfl)
  simp only [List.mem_append] at hp'
  rcases hp' with ((h | h) | h) | h
  · exact hm1 p h
  · exact hl2 p h
  · exact hl3 p h
  · exact hm4 p h

/-- A falsy `success` field sends the budget normalization to the
`agent_error` return with the source's `error`/`message` fallback chain. -/
theorem budgetCore_success_false (fields : List (String × JValue))
    (hsucc : (JValue.getD (.obj fields) "success" (.bool false)).truthy = false) :
    budgetCore (.obj fields) =
      .ok (.inr (pyStr ((JValue.obj fields).getD "error"
        ((JValue.obj fields).getD "message"
          (.str "Unknown error from budget tracker agent"))))) := by
  unfold budgetCore
  simp [hsucc]

/-- Claim C6: for the budget-tracking agent on HTTP 200, `success=false` yields an
`agent_error`; `success` truthy with no truthy `response` field yields a
success envelope whose result text is synthesized and non-empty (given the
synthesis fields carry their documented types); a JSON parse exception
yields `parse_error`. -/
theorem budget_response_normalization (hx : Bool) (rid : String)
    (meta : AgentMetadata) (intent text : String) (ctx : Context)
    (ci : Option JValue) (fields : List (String × JValue))
    (hname : meta.name = "budget_tracker_agent") (htype : meta.type = "http")
    (hend : optTruthy meta.endpoint = true) (hhx : hx = true) :
    ((JValue.getD (.obj fields) "success" (.bool false)).truthy = false →
      callAgent hx rid meta intent text ctx ci (.resp 200 (.ok (.obj fields))) =
        mkError rid meta.name "agent_error"
          (pyStr ((JValue.obj fields).getD "error"
            ((JValue.obj fields).getD "message"
              (.str "Unknown error from budget tracker agent")))))
    ∧ ((JValue.getD (.obj fields) "success" (.bool false)).truthy = true →
      (JValue.getD (.obj fields) "response" .null).truthy = false →
      (∀ v, JValue.get (.obj fields) "remaining" = some v → ∃ n, v = JValue.num n) →
      (∀ v, JValue.get (.obj fields) "recommendations" = some v →
        ∃ xs, v = JValue.arr xs ∧ ∃ ss, strElems xs = .ok ss) →
      (callAgent hx rid meta intent text ctx ci (.resp 200 (.ok (.obj fields)))).status =
        "success"
      ∧ ∃ out, (callAgent hx rid meta intent text ctx ci
          (.resp 200 (.ok (.obj fields)))).output = some out ∧ out.result ≠ "")
    ∧ (∀ m, callAgent hx rid meta intent text ctx ci (.resp 200 (.parseFail m)) =
        mkError rid meta.name "parse_error" ("Failed to parse agent response: " ++ m)) := by
  have hbne : meta.name ≠ "progress_accountability_agent" := by
    rw [hname]; decide
  have hred : ∀ body, callAgent hx rid meta intent text ctx ci (.resp 200 body) =
      handleBudget rid meta.name body := by
    intro body
    simp [callAgent, htype, hend, hhx, hname, hbne]
  refine ⟨?_, ?_, ?_⟩
  · intro hsucc
    rw [hred]
    simp [handleBudget, budgetCore_success_false fields hsucc]
  · intro hsucc hresp hrem hrec
    rw [hred]
    obtain ⟨R, hR, hne⟩ := budgetCore_synth fields hsucc hresp hrem hrec
    rw [show handleBudget rid meta.name (.ok (.obj fields)) =
        mkSuccess rid meta.name R
          (if (JValue.obj fields).truthy then some (jsonDumps (.obj fields)) else none) by
      simp [handleBudget, hR]]
    exact ⟨rfl, ⟨R, _⟩, rfl, hne⟩
  · intro m
    rw [hred]
    rfl

/-- Claim C6 witness: a `success=false` reply, a `success=true` reply with a
synthesizable body, and a parse failure, at concrete inputs. -/
theorem budget_response_normalization_witness :
    callAgent true "r" ⟨"budget_tracker_agent", "http", some "http://e", 1000⟩
        "i" "t" ⟨none, none, none, []⟩ none
        (.resp 200 (.ok (.obj [("success", .bool false), ("error", .str "no project")]))) =
      mkError "r" "budget_tracker_agent" "agent_error"
        (pyStr ((JValue.obj [("success", .bool false), ("error", .str "no project")]).getD
          "error" ((JValue.obj [("success", .bool false), ("error", .str "no project")]).getD
            "message" (.str "Unknown error from budget tracker agent"))))
    ∧ ((callAgent true "r" ⟨"budget_tracker_agent", "http", some "http://e", 1000⟩
        "i" "t" ⟨none, none, none, []⟩ none
        (.resp 200 (.ok (.obj [("success", .bool true), ("project_name", .str "Apollo")])))).status =
      "success"
      ∧ ∃ out, (callAgent true "r" ⟨"budget_tracker_agent", "http", some "http://e", 1000⟩
          "i" "t" ⟨none, none, none, []⟩ none
          (.resp 200 (.ok (.obj [("success", .bool true),
            ("project_name", .str "Apollo")])))).output = some out ∧ out.result ≠ "")
    ∧ callAgent true "r" ⟨"budget_tracker_agent", "http", some "http://e", 1000⟩
        "i" "t" ⟨none, none, none, []⟩ none (.resp 200 (.parseFail "oops")) =
      mkError "r" "budget_tracker_agent" "parse_error"
        ("Failed to parse agent response: " ++ "oops") := by
  have h1 := budget_response_normalization true "r"
    ⟨"budget_tracker_agent", "http", some "http://e", 1000⟩ "i" "t"
    ⟨none, none, none, []⟩ none [("success", .bool false), ("error", .str "no project")]
    rfl rfl rfl rfl
  have h2 := budget_response_normalization true "r"
    ⟨"budget_tracker_agent", "http", some "http://e", 1000⟩ "i" "t"
    ⟨none, none, none, []⟩ none [("success", .bool true), ("project_name", .str "Apollo")]
    rfl rfl rfl rfl
  refine ⟨h1.1 (by decide), h2.2.1 (by decide) (by decide) ?_ ?_, h2.2.2 "oops"⟩
  · intro v hv
    simp [JValue.get, List.lookup] at hv
  · intro v hv
    simp [JValue.get, List.lookup] at hv

/-- The spec's envelope invariant: exactly one of `output`/`error` is
populated, and `error` is present exactly when `status` is `error`. -/
def envelopeInvariant (r : AgentResponse) : Bool :=
  (r.output.isSome != r.error.isSome) && (r.error.isSome == (r.status == "error"))

/-- The one path of `call_agent` where the returned envelope is not
constructed by the source but decoded directly from the HTTP 200 body
(agent_caller.py line 393): live HTTP dispatch, an agent that is neither the
progress/accountability nor the budget-tracking agent, and a body that
validates as an `AgentResponse`. -/
def genericDecodeSuccess (hx : Bool) (meta : AgentMetadata)
    (outcome : HttpOutcome) : Bool :=
  meta.type == "http" && optTruthy meta.endpoint && hx &&
  !(meta.name == "progress_accountability_agent") &&
  !(meta.name == "budget_tracker_agent") &&
  (match outcome with
   | .resp 200 (.ok j) =>
     match parseAgentResponse j with
     | .ok _ => true
     | .error _ => false
   | _ => false)

/-- Constructed error envelopes satisfy the invariant. -/
theorem envelopeInvariant_mkError (rid name t m : String) :
    envelopeInvariant (mkError rid name t m) = true := by
  simp [envelopeInvariant, mkError]

/-- Constructed success envelopes satisfy the invariant. -/
theorem envelopeInvariant_mkSuccess (rid name r : String) (d : Option String) :
    envelopeInvariant (mkSuccess rid name r d) = true := by
  simp [envelopeInvariant, mkSuccess]

/-- Claim C4 counterexample: on the generic decode path, a 200 body that carries
`status="success"` together with both an `output` and an `error` sub-object
is decoded and returned as-is, violating the envelope invariant. -/
theorem envelope_invariant_counterexample :
    ((callAgent true "rid" ⟨"remote_agent", "http", some "http://e", 1000⟩ "i" "t"
      ⟨none, none, none, []⟩ none (.resp 200 (.ok (.obj
        [("request_id", .str "rr"), ("agent_name", .str "remote_agent"),
         ("status", .str "success"),
         ("output", .obj [("result", .str "ok")]),
         ("error", .obj [("type", .str "agent_error"), ("message", .str "boom")])])))).status =
      "success")
    ∧ (callAgent true "rid" ⟨"remote_agent", "http", some "http://e", 1000⟩ "i" "t"
      ⟨none, none, none, []⟩ none (.resp 200 (.ok (.obj
        [("request_id", .str "rr"), ("agent_name", .str "remote_agent"),
         ("status", .str "success"),
         ("output", .obj [("result", .str "ok")]),
         ("error", .obj [("type", .str "agent_error"), ("message", .str "boom")])])))).output ≠ none
    ∧ (callAgent true "rid" ⟨"remote_agent", "http", some "http://e", 1000⟩ "i" "t"
      ⟨none, none, none, []⟩ none (.resp 200 (.ok (.obj
        [("request_id", .str "rr"), ("agent_name", .str "remote_agent"),
         ("status", .str "success"),
         ("output", .obj [("result", .str "ok")]),
         ("error", .obj [("type", .str "agent_error"), ("message", .str "boom")])])))).error ≠ none
    ∧ envelopeInvariant (callAgent true "rid" ⟨"remote_agent", "http", some "http://e", 1000⟩
      "i" "t" ⟨none, none, none, []⟩ none (.resp 200 (.ok (.obj
        [("request_id", .str "rr"), ("agent_name", .str "remote_agent"),
         ("status", .str "success"),
         ("output", .obj [("result", .str "ok")]),
         ("error", .obj [("type", .str "agent_error"), ("message", .str "boom")])])))) = false := by
  decide

/-- Claim C4 amended: every `AgentResponse` that `call_agent` itself constructs
satisfies the envelope invariant; only the generic decode path, which
returns the remote 200 body verbatim, is exempt. -/
theorem call_agent_envelope_invariant (hx : Bool) (rid : String)
    (meta : AgentMetadata) (intent text : String) (ctx : Context)
    (ci : Option JValue) (outcome : HttpOutcome)
    (h : genericDecodeSuccess hx meta outcome = false) :
    envelopeInvariant (callAgent hx rid meta intent text ctx ci outcome) = true := by
  by_cases hpre : (meta.type == "http" && optTruthy meta.endpoint && hx) = true
  · rcases outcome with m | ⟨code, body⟩
    · rw [show callAgent hx rid meta intent text ctx ci (.exc m) =
          mkError rid meta.name "network_error" m by simp [callAgent, hpre]]
      exact envelopeInvariant_mkError _ _ _ _
    · by_cases hcode : code = 200
      · subst hcode
        by_cases hprog : (meta.name == "progress_accountability_agent") = true
        · have hred : callAgent hx rid meta intent text ctx ci (.resp 200 body) =
              handleProgress rid meta.name body := by
            simp only [callAgent, hpre, if_true]
            rw [if_neg (by simp), if_pos hprog]
          rw [hred]
          rcases handleProgress_shape rid meta.name body with ⟨r, d, hs⟩ | ⟨t, m, hs⟩
          · rw [hs]; exact envelopeInvariant_mkSuccess _ _ _ _
          · rw [hs]; exact envelopeInvariant_mkError _ _ _ _
        · by_cases hbud : (meta.name == "budget_tracker_agent") = true
          · have hred : callAgent hx rid meta intent text ctx ci (.resp 200 body) =
                handleBudget rid meta.name body := by
              simp only [callAgent, hpre, if_true]
              rw [if_neg (by simp), if_neg (by simp [hprog]), if_pos hbud]
            rw [hred]
            rcases handleBudget_shape rid meta.name body with ⟨r, d, hs⟩ | ⟨t, m, hs⟩
            · rw [hs]; exact envelopeInvariant_mkSuccess _ _ _ _
            · rw [hs]; exact envelopeInvariant_mkError _ _ _ _
          · rcases body with m | j
            · rw [show callAgent hx rid meta intent text ctx ci (.resp 200 (.parseFail m)) =
                  mkError rid meta.name "network_error" m by
                simp only [callAgent, hpre, if_true]
                rw [if_neg (by simp), if_neg (by simp [hprog]), if_neg (by simp [hbud])]]
              exact envelopeInvariant_mkError _ _ _ _
            · rcases hp : parseAgentResponse j with e | r
              · rw [show callAgent hx rid meta intent text ctx ci (.resp 200 (.ok j)) =
                    mkError rid meta.name "network_error" e by
                  simp only [callAgent, hpre, if_true]
                  rw [if_neg (by simp), if_neg (by simp [hprog]), if_neg (by simp [hbud])]
                  simp [hp]]
                exact envelopeInvariant_mkError _ _ _ _
              · exfalso
                have : genericDecodeSuccess hx meta (.resp 200 (.ok j)) = true := by
                  unfold genericDecodeSuccess
                  simp only [Bool.and_eq_true, Bool.not_eq_true']
                  simp only [Bool.and_eq_true] at hpre
                  obtain ⟨⟨ht, he⟩, hhx⟩ := hpre
                  refine ⟨⟨⟨⟨⟨ht, he⟩, hhx⟩, ?_⟩, ?_⟩, ?_⟩
                  · simpa using hprog
                  · simpa using hbud
                  · simp [hp]
                rw [h] at this
                exact Bool.false_ne_true this
      · have hb : (code != 200) = true := by simpa using hcode
        rw [show callAgent hx rid meta intent text ctx ci (.resp code body) =
            mkError rid meta.name "http_error"
              ("HTTP " ++ toString code ++ " calling " ++ meta.endpoint.getD "") by
          simp only [callAgent, hpre, if_true]
          rw [if_pos hb]]
        exact envelopeInvariant_mkError _ _ _ _
  · have hb : (meta.type == "http" && optTruthy meta.endpoint && hx) = false := by
      rcases Bool.eq_false_or_eq_true (meta.type == "http" && optTruthy meta.endpoint && hx)
        with h1 | h1
      · exact absurd h1 hpre
      · exact h1
    simp only [callAgent, hb, Bool.false_eq_true, if_false]
    by_cases hh : (meta.type == "http" && !hx) = true
    · rw [if_pos hh]; exact envelopeInvariant_mkError _ _ _ _
    · rw [if_neg hh]
      by_cases hcli : (meta.type == "cli") = true
      · rw [if_pos hcli]; exact envelopeInvariant_mkError _ _ _ _
      · rw [if_neg hcli]; exact envelopeInvariant_mkError _ _ _ _

/-- Claim C4 amended witness: a progress-agent error reply is on a constructed
path and satisfies the invariant. -/
theorem call_agent_envelope_invariant_witness :
    envelopeInvariant (callAgent true "r"
      ⟨"progress_accountability_agent", "http", some "http://e", 1000⟩ "i" "t"
      ⟨none, none, none, []⟩ none
      (.resp 200 (.ok (.obj [("status", .str "error"), ("message", .str "x")])))) = true :=
  call_agent_envelope_invariant true "r"
    ⟨"progress_accountability_agent", "http", some "http://e", 1000⟩ "i" "t"
    ⟨none, none, none, []⟩ none
    (.resp 200 (.ok (.obj [("status", .str "error"), ("message", .str "x")])))
    (by decide)

end Supervisor
